import Mathlib

unseal Rat.add Rat.mul Rat.sub Rat.inv Nat.gcd

set_option maxRecDepth 100000

/-!
Shallow embedding of the on-device biometric identity subsystem of the
mobile attendance app, together with proofs checking the natural-language
specification against it.

Conventions of the embedding:
* JavaScript numbers are modelled as exact rationals; `Math.sqrt` is an
  opaque parameter of the functions that use it (its value never matters
  for the properties proved here).
* `undefined`/`null` fields are modelled with `Option`; the JS truthiness
  idioms `x || d` (with `0` and `""` falsy) and `x ?? d` are modelled by
  the helpers `jsOrQ`, `jsOrNum`, `strTruthyO`, `jsNullish`.
* The 32-bit wrap of the JS `<<` operator is `wrap32`; only the shift
  result wraps, matching JS semantics of `((acc << 5) - acc) + c`.
* Asynchronous UI flows are modelled as explicit state-passing functions
  or as step functions over an event trace.
-/

/-! ## JavaScript primitives -/

/-- JS `a || d` for an optional number: `undefined` and `0` are falsy. -/
def jsOrQ (a : Option ℚ) (d : ℚ) : ℚ :=
  match a with
  | some v => if v = 0 then d else v
  | none => d

/-- JS `v || d` for a definite number: `0` is falsy. -/
def jsOrNum (v d : ℚ) : ℚ := if v = 0 then d else v

/-- JS truthiness of an optional number. -/
def truthyQ (a : Option ℚ) : Bool :=
  match a with
  | some v => decide (v ≠ 0)
  | none => false

/-- JS truthiness of an optional string: `undefined`, `null` and `""` are falsy. -/
def strTruthyO (a : Option String) : Bool :=
  match a with
  | some s => decide (s ≠ "")
  | none => false

/-- JS `a ?? b` (nullish coalescing) on optional numbers. -/
def jsNullish (a b : Option ℚ) : Option ℚ :=
  match a with
  | some v => some v
  | none => b

/-- Floor of a rational, computable through integer floor division. -/
def ratFloor (q : ℚ) : ℤ := Int.fdiv q.num q.den

/-- JS `Math.round`: floor of `x + 1/2` (halves round toward positive infinity). -/
def jsRound (x : ℚ) : ℤ := ratFloor (x + 1/2)

/-- JS `Math.round(x * 100) / 100`, the two-decimal quantization used by the
feature extractor. -/
def jsRound2 (x : ℚ) : ℚ := (jsRound (x * 100) : ℚ) / 100

/-- Left-pad the decimal digits of `n` with zeros to width 4. -/
def pad4 (n : ℕ) : String :=
  let s := toString n
  let zeros := String.mk (List.replicate (4 - s.length) '0')
  zeros ++ s

/-- Render a nonnegative rational with exactly four decimal digits,
rounding half away from zero. -/
def toFixed4Nonneg (a : ℚ) : String :=
  let n := (ratFloor (a * 10000 + 1/2)).toNat
  toString (n / 10000) ++ "." ++ pad4 (n % 10000)

/-- JS `Number.prototype.toFixed(4)`: four decimal digits, sign kept. -/
def toFixed4 (q : ℚ) : String :=
  if q < 0 then "-" ++ toFixed4Nonneg (-q) else toFixed4Nonneg q

/-- Wrap an integer into the signed 32-bit range, as JS bitwise operators do. -/
def wrap32 (x : ℤ) : ℤ := (x + 2 ^ 31) % 2 ^ 32 - 2 ^ 31

/-- One step of the source hash `acc => ((acc << 5) - acc) + char`: in JS only
the shift wraps to 32 bits, the subtraction and addition are exact. -/
def jsHashStep (acc : ℤ) (c : Char) : ℤ := wrap32 (acc * 32) - acc + (c.toNat : ℤ)

/-- The rolling hash of the source, folded over the characters of a string. -/
def jsHashString (s : String) : ℤ := s.toList.foldl jsHashStep 0

/-- Hash described by the specification text: `h = h*31 + charCode` wrapped to
signed 32-bit at every step.  Kept for comparison with the source hash. -/
def wrappedHashString (s : String) : ℤ :=
  s.toList.foldl (fun acc c => wrap32 (acc * 31 + (c.toNat : ℤ))) 0

/-- Hexadecimal digit characters, lowercase as in JS `toString(16)`. -/
def hexDigit (n : ℕ) : Char :=
  if n < 10 then Char.ofNat (48 + n) else Char.ofNat (87 + n)

/-- Fuel-driven hex digit accumulation (64 digits of fuel is plenty). -/
def natToHexAux : ℕ → ℕ → List Char
  | 0, _ => []
  | fuel + 1, n => if n = 0 then [] else natToHexAux fuel (n / 16) ++ [hexDigit (n % 16)]

/-- JS `n.toString(16)` for a nonnegative integer. -/
def natToHex (n : ℕ) : String :=
  if n = 0 then "0" else String.mk (natToHexAux 64 n)

/-! ## FaceObservation data model (`faceRecognition` utility input shapes) -/

/-- One ML Kit landmark; coordinates may come as direct `x`/`y` fields or
nested under `position`. -/
structure Landmark where
  x : Option ℚ := none
  y : Option ℚ := none
  posX : Option ℚ := none
  posY : Option ℚ := none
  deriving Repr, DecidableEq

/-- The ML Kit landmark set. -/
structure Landmarks where
  leftEye : Option Landmark := none
  rightEye : Option Landmark := none
  noseBase : Option Landmark := none
  mouthLeft : Option Landmark := none
  mouthRight : Option Landmark := none
  mouthBottom : Option Landmark := none
  leftEar : Option Landmark := none
  rightEar : Option Landmark := none
  leftCheek : Option Landmark := none
  rightCheek : Option Landmark := none
  deriving Repr, DecidableEq

/-- Bounding box in the `frame` shape. -/
structure Frame where
  left : Option ℚ := none
  top : Option ℚ := none
  width : Option ℚ := none
  height : Option ℚ := none
  deriving Repr, DecidableEq

/-- Bounding box in the `bounds` shape (`origin`/`size` or flat fields). -/
structure Bounds where
  originX : Option ℚ := none
  originY : Option ℚ := none
  sizeWidth : Option ℚ := none
  sizeHeight : Option ℚ := none
  left : Option ℚ := none
  top : Option ℚ := none
  width : Option ℚ := none
  height : Option ℚ := none
  deriving Repr, DecidableEq

/-- One detector observation as consumed by the face-recognition utility. -/
structure FaceData where
  frame : Option Frame := none
  bounds : Option Bounds := none
  landmarks : Option Landmarks := none
  smilingProbability : Option ℚ := none
  leftEyeOpenProbability : Option ℚ := none
  rightEyeOpenProbability : Option ℚ := none
  headEulerAngleX : Option ℚ := none
  headEulerAngleY : Option ℚ := none
  headEulerAngleZ : Option ℚ := none
  rotationX : Option ℚ := none
  rotationY : Option ℚ := none
  rotationZ : Option ℚ := none
  deriving Repr, DecidableEq

/-! ## CenteringTracker geometry: `isFaceCentered` -/

/-- Guidance message: move your face to the left (Arabic in the source). -/
def msgMoveLeft : String := "حرك وجهك إلى اليسار"

/-- Guidance message: move your face to the right. -/
def msgMoveRight : String := "حرك وجهك إلى اليمين"

/-- Guidance message: move your face down. -/
def msgMoveDown : String := "حرك وجهك إلى الأسفل"

/-- Guidance message: move your face up. -/
def msgMoveUp : String := "حرك وجهك إلى الأعلى"

/-- Result record of `isFaceCentered`. -/
structure CenterResult where
  centered : Bool
  offsetX : ℚ
  offsetY : ℚ
  message : Option String
  deriving Repr, DecidableEq

/-- Numeric field of `face.frame || face.bounds || {}` followed by `|| 0`:
the flat `left`/`top`/`width`/`height` fields of whichever box shape is
present, defaulting to `0`. -/
def centerBoxField (fd : FaceData) (ff : Frame → Option ℚ) (bf : Bounds → Option ℚ) : ℚ :=
  match fd.frame with
  | some fr => jsOrQ (ff fr) 0
  | none =>
    match fd.bounds with
    | some b => jsOrQ (bf b) 0
    | none => 0

/-- Source `isFaceCentered`: percentage offsets of the face center from the
frame center, a ±25 acceptance band on both axes, and Arabic guidance text
chosen by checking the X axis before the Y axis. -/
def isFaceCentered (fd : FaceData) (imageWidth imageHeight : ℚ) : CenterResult :=
  let faceLeft := centerBoxField fd (fun fr => fr.left) (fun b => b.left)
  let faceTop := centerBoxField fd (fun fr => fr.top) (fun b => b.top)
  let faceWidth := centerBoxField fd (fun fr => fr.width) (fun b => b.width)
  let faceHeight := centerBoxField fd (fun fr => fr.height) (fun b => b.height)
  let faceCenterX := faceLeft + faceWidth / 2
  let faceCenterY := faceTop + faceHeight / 2
  let imageCenterX := imageWidth / 2
  let imageCenterY := imageHeight / 2
  let offsetX := (faceCenterX - imageCenterX) / imageWidth * 100
  let offsetY := (faceCenterY - imageCenterY) / imageHeight * 100
  let threshold : ℚ := 25
  let isCenteredX := decide (|offsetX| ≤ threshold)
  let isCenteredY := decide (|offsetY| ≤ threshold)
  let message : Option String :=
    if !isCenteredX || !isCenteredY then
      if offsetX > threshold then some msgMoveLeft
      else if offsetX < -threshold then some msgMoveRight
      else if offsetY > threshold then some msgMoveDown
      else if offsetY < -threshold then some msgMoveUp
      else none
    else none
  { centered := isCenteredX && isCenteredY
    offsetX := offsetX
    offsetY := offsetY
    message := message }

/-! ## QualityGate: `validateFaceQuality` -/

/-- Rejection reason for a missing bounding box. -/
def reasonNoFace : String := "No face detected"

/-- Rejection reason for an excessive head-yaw angle. -/
def reasonLookAtCamera : String := "Please look at the camera"

/-- Rejection reason for closed eyes. -/
def reasonOpenEyes : String := "Please open your eyes"

/-- Rejection reason for a too-small face (Arabic in the source). -/
def reasonTooFar : String := "اقترب قليلاً - املأ الدائرة بوجهك"

/-- Rejection reason for a non-frontal aspect ratio (Arabic in the source). -/
def reasonNotFrontal : String := "انظر مباشرة إلى الكاميرا"

/-- Verdict record of `validateFaceQuality`. -/
structure QualityResult where
  valid : Bool
  reason : Option String
  deriving Repr, DecidableEq

/-- Width read by the quality gate: `frame.width || frame.size?.width || 0`
where `frame` is `faceData.frame || faceData.bounds || {}`. -/
def qualityBoxWidth (fd : FaceData) : ℚ :=
  match fd.frame with
  | some fr => jsOrQ fr.width 0
  | none =>
    match fd.bounds with
    | some b => jsOrQ b.width (jsOrQ b.sizeWidth 0)
    | none => 0

/-- Height read by the quality gate, mirroring `qualityBoxWidth`. -/
def qualityBoxHeight (fd : FaceData) : ℚ :=
  match fd.frame with
  | some fr => jsOrQ fr.height 0
  | none =>
    match fd.bounds with
    | some b => jsOrQ b.height (jsOrQ b.sizeHeight 0)
    | none => 0

/-- Guard of rule 1: `!faceData.frame && !faceData.bounds`. -/
def vfNoBox (fd : FaceData) : Bool := fd.frame.isNone && fd.bounds.isNone

/-- Guard of rule 2: the head-rotation-Y angle is reported and its
magnitude exceeds 30 degrees. -/
def vfYawReject (fd : FaceData) : Bool :=
  match fd.headEulerAngleY with
  | some y => decide (|y| > 30)
  | none => false

/-- Guard of rule 3: both eye-open probabilities are reported and their
mean is below 0.5. -/
def vfEyesReject (fd : FaceData) : Bool :=
  match fd.leftEyeOpenProbability, fd.rightEyeOpenProbability with
  | some l, some r => decide ((l + r) / 2 < 1/2)
  | _, _ => false

/-- Guard of rule 4: the face width is below 150 pixels. -/
def vfTooSmall (fd : FaceData) : Bool := decide (qualityBoxWidth fd < 150)

/-- Guard of rule 5: the aspect ratio leaves the band `[0.7, 1.4]`. -/
def vfNotFrontal (fd : FaceData) : Bool :=
  decide (qualityBoxWidth fd / max (qualityBoxHeight fd) 1 < 7/10) ||
  decide (qualityBoxWidth fd / max (qualityBoxHeight fd) 1 > 7/5)

/-- Source `validateFaceQuality`: five ordered rejection rules
(no box, head yaw, eye openness, minimum width, aspect ratio), then accept. -/
def validateFaceQuality (fd : FaceData) : QualityResult :=
  if vfNoBox fd then
    { valid := false, reason := some reasonNoFace }
  else if vfYawReject fd then
    { valid := false, reason := some reasonLookAtCamera }
  else if vfEyesReject fd then
    { valid := false, reason := some reasonOpenEyes }
  else if vfTooSmall fd then
    { valid := false, reason := some reasonTooFar }
  else if vfNotFrontal fd then
    { valid := false, reason := some reasonNotFrontal }
  else
    { valid := true, reason := none }

/-! ## FeatureNormalizer / IdHasher: `generateFaceIdFromLandmarks` -/

/-- Resolved bounding box of the hasher: `faceData.frame || {}`, replaced by a
box derived from `faceData.bounds` when the frame width is falsy. -/
structure RFrame where
  left : Option ℚ
  top : Option ℚ
  width : Option ℚ
  height : Option ℚ
  deriving Repr, DecidableEq

/-- Source frame-resolution logic at the top of `generateFaceIdFromLandmarks`. -/
def resolveFrame (fd : FaceData) : RFrame :=
  let frame0 : RFrame :=
    match fd.frame with
    | some fr => ⟨fr.left, fr.top, fr.width, fr.height⟩
    | none => ⟨none, none, none, none⟩
  if !truthyQ frame0.width then
    match fd.bounds with
    | some b =>
      ⟨some (jsOrQ b.originX (jsOrQ b.left 0)),
       some (jsOrQ b.originY (jsOrQ b.top 0)),
       some (jsOrQ b.sizeWidth (jsOrQ b.width 1)),
       some (jsOrQ b.sizeHeight (jsOrQ b.height 1))⟩
    | none => frame0
  else frame0

/-- Numeric face width used by the hasher (`frame.width || 1`). -/
def frameWidthVal (fd : FaceData) : ℚ := jsOrQ (resolveFrame fd).width 1

/-- Numeric face height used by the hasher (`frame.height || 1`). -/
def frameHeightVal (fd : FaceData) : ℚ := jsOrQ (resolveFrame fd).height 1

/-- Numeric left edge used by the hasher (`frame.left || 0`). -/
def frameLeftVal (fd : FaceData) : ℚ := jsOrQ (resolveFrame fd).left 0

/-- Numeric top edge used by the hasher (`frame.top || 0`). -/
def frameTopVal (fd : FaceData) : ℚ := jsOrQ (resolveFrame fd).top 0

/-- Source `getLandmarkPos`: direct `x`/`y` fields if both defined, else the
nested `position` fields, else `null`. -/
def getLandmarkPos (l : Option Landmark) : Option (ℚ × ℚ) :=
  match l with
  | none => none
  | some lm =>
    match lm.x, lm.y with
    | some x, some y => some (x, y)
    | _, _ =>
      match lm.posX, lm.posY with
      | some x, some y => some (x, y)
      | _, _ => none

/-- Empty landmark set (JS `faceData.landmarks || {}`). -/
def emptyLandmarks : Landmarks := {}

/-- Position of one named landmark of an observation. -/
def landmarkPos (fd : FaceData) (sel : Landmarks → Option Landmark) : Option (ℚ × ℚ) :=
  getLandmarkPos (sel (fd.landmarks.getD emptyLandmarks))

/-- Feature contribution of one landmark: its position relative to the face
center, normalized by the box dimensions; absent landmarks contribute nothing. -/
def lmFeat (cX cY w h : ℚ) (p : Option (ℚ × ℚ)) : List ℚ :=
  match p with
  | some (x, y) => [(x - cX) / w, (y - cY) / h]
  | none => []

/-- Whether the observation carries at least one of the five landmarks the
feature extractor reads (eyes, nose base, mouth corners). -/
def usedLandmarkPresent (fd : FaceData) : Bool :=
  (landmarkPos fd (fun l => l.leftEye)).isSome ||
  (landmarkPos fd (fun l => l.rightEye)).isSome ||
  (landmarkPos fd (fun l => l.noseBase)).isSome ||
  (landmarkPos fd (fun l => l.mouthLeft)).isSome ||
  (landmarkPos fd (fun l => l.mouthRight)).isSome

/-- Normalized inter-eye distance feature, present only when both eye
positions are available; `sqrtFn` stands for the external `Math.sqrt`. -/
def eyeDistFeat (sqrtFn : ℚ → ℚ) (w : ℚ) (pL pR : Option (ℚ × ℚ)) : List ℚ :=
  match pL, pR with
  | some (lx, ly), some (rx, ry) => [sqrtFn ((rx - lx) ^ 2 + (ry - ly) ^ 2) / w]
  | _, _ => []

/-- Feature contribution of an optional classification score, rounded to
two decimals when present. -/
def scoreFeat (o : Option ℚ) : List ℚ :=
  match o with
  | some p => [jsRound2 p]
  | none => []

/-- Feature contribution of an optional rotation angle, normalized from
the −90..+90 range into 0..1 and rounded to two decimals. -/
def rotFeat (rot : Option ℚ) : List ℚ :=
  match rot with
  | some r => [jsRound2 ((r + 90) / 180)]
  | none => []

/-- The landmark-derived features of `generateFaceIdFromLandmarks`: the
five used landmarks relative to the face center plus the inter-eye
distance. -/
def coreFeatures (sqrtFn : ℚ → ℚ) (fd : FaceData) : List ℚ :=
  lmFeat (frameLeftVal fd + frameWidthVal fd / 2)
      (frameTopVal fd + frameHeightVal fd / 2)
      (frameWidthVal fd) (frameHeightVal fd)
      (landmarkPos fd (fun l => l.leftEye)) ++
  lmFeat (frameLeftVal fd + frameWidthVal fd / 2)
      (frameTopVal fd + frameHeightVal fd / 2)
      (frameWidthVal fd) (frameHeightVal fd)
      (landmarkPos fd (fun l => l.rightEye)) ++
  lmFeat (frameLeftVal fd + frameWidthVal fd / 2)
      (frameTopVal fd + frameHeightVal fd / 2)
      (frameWidthVal fd) (frameHeightVal fd)
      (landmarkPos fd (fun l => l.noseBase)) ++
  lmFeat (frameLeftVal fd + frameWidthVal fd / 2)
      (frameTopVal fd + frameHeightVal fd / 2)
      (frameWidthVal fd) (frameHeightVal fd)
      (landmarkPos fd (fun l => l.mouthLeft)) ++
  lmFeat (frameLeftVal fd + frameWidthVal fd / 2)
      (frameTopVal fd + frameHeightVal fd / 2)
      (frameWidthVal fd) (frameHeightVal fd)
      (landmarkPos fd (fun l => l.mouthRight)) ++
  eyeDistFeat sqrtFn (frameWidthVal fd)
      (landmarkPos fd (fun l => l.leftEye))
      (landmarkPos fd (fun l => l.rightEye))

/-- The landmark-free fallback features: normalized box position, aspect
ratio and the available rotation angles. -/
def fallbackFeatures (fd : FaceData) : List ℚ :=
  [jsRound2 (frameLeftVal fd / max (frameWidthVal fd) 1),
   jsRound2 (frameTopVal fd / max (frameHeightVal fd) 1),
   jsRound2 (frameWidthVal fd / max (frameHeightVal fd) 1)] ++
  rotFeat (jsNullish fd.headEulerAngleX fd.rotationX) ++
  rotFeat (jsNullish fd.headEulerAngleY fd.rotationY) ++
  rotFeat (jsNullish fd.headEulerAngleZ fd.rotationZ)

/-- Feature vector of `generateFaceIdFromLandmarks`: landmark features,
the fallback block when they are all absent, then the smiling score, the
aspect ratio and the normalized head-yaw angle. -/
def faceFeatures (sqrtFn : ℚ → ℚ) (fd : FaceData) : List ℚ :=
  (if (coreFeatures sqrtFn fd).isEmpty then fallbackFeatures fd
   else coreFeatures sqrtFn fd) ++
  scoreFeat fd.smilingProbability ++
  [jsRound2 (frameWidthVal fd / jsOrNum (frameHeightVal fd) 1)] ++
  rotFeat fd.headEulerAngleY

/-- Comma-joined string of the features rendered with `toFixed(4)`. -/
def featureString (sqrtFn : ℚ → ℚ) (fd : FaceData) : String :=
  String.intercalate "," ((faceFeatures sqrtFn fd).map toFixed4)

/-- Source `generateFaceIdFromLandmarks`: hash of the feature string,
absolute value, hexadecimal. -/
def generateFaceIdFromLandmarks (sqrtFn : ℚ → ℚ) (fd : FaceData) : String :=
  natToHex (Int.natAbs (jsHashString (featureString sqrtFn fd)))

/-- Source `generateFaceIdFallback` applied to a base64 string: hashes three
100-character samples (start, middle, end) of the data. -/
def generateFaceIdFallback (imageData : String) : String :=
  let n := imageData.length
  let sample1 := (imageData.toList.take 100)
  let sample2 := ((imageData.toList.drop (n / 2)).take 100)
  let sample3 := (imageData.toList.drop (n - min n 100))
  let combined := String.mk (sample1 ++ sample2 ++ sample3)
  natToHex (Int.natAbs (jsHashString combined))

/-- Source `generateFaceId`: landmark hashing whenever landmarks or a box are
present, else the base64 fallback, else a hash of a serialization of the
observation (`serialize` stands for the external `JSON.stringify`). -/
def generateFaceId (sqrtFn : ℚ → ℚ) (serialize : FaceData → String)
    (fd : FaceData) (base64Image : Option String) : String :=
  if fd.landmarks.isSome || fd.frame.isSome || fd.bounds.isSome then
    generateFaceIdFromLandmarks sqrtFn fd
  else if strTruthyO base64Image then
    generateFaceIdFallback (base64Image.getD "")
  else
    generateFaceIdFallback (serialize fd)

/-! ## CenteringTracker smoothing counter

The detection loop keeps `centeredCountRef`: a centered observation
increments it, a non-centered or absent face resets it to zero, and the
loop declares the face centered once the counter has reached two. -/

/-- One detection-tick observation fed to the centering tracker: either no
face, or a face together with the photo dimensions used for the check. -/
inductive CenterObs where
  | noFace : CenterObs
  | face (fd : FaceData) (imageWidth imageHeight : ℚ) : CenterObs
  deriving Repr

/-- Whether the observation passes the `isFaceCentered` check. -/
def obsCentered : CenterObs → Bool
  | .noFace => false
  | .face fd w h => (isFaceCentered fd w h).centered

/-- Counter update of the detection loop: increment on a centered
observation, reset to zero otherwise. -/
def centerTrack (count : ℕ) (o : CenterObs) : ℕ :=
  if obsCentered o then count + 1 else 0

/-- Counter value after a sequence of observations, starting from zero as a
fresh detection session does. -/
def centerCountAfter (os : List CenterObs) : ℕ :=
  os.foldl centerTrack 0

/-- Whether the loop declares the face centered (`setFaceCentered(true)`)
after processing the sequence: the counter must have reached two. -/
def declaredCentered (os : List CenterObs) : Bool :=
  decide (centerCountAfter os ≥ 2)

/-! ## CaptureOrchestrator session model

The capture screen's detection loop, settle timer and cancellation logic
are modelled as a step function over session states driven by environment
events.  Timer firings and detection completions are events; the guards
executed by the source callbacks decide their effect.  A `focus` event
starts a new session (the source focus listener resets the capture flag),
so traces without `focus` events stay within one session. -/

/-- Session state of the capture screen: the refs and state flags the
detection and capture callbacks read and write. -/
structure CaptureSession where
  focused : Bool
  permission : Bool
  hasCaptured : Bool
  isCapturing : Bool
  centeredCount : ℕ
  captureTimer : Bool
  detectionActive : Bool
  storedPhoto : Bool
  capturingEntries : ℕ
  captureEvents : ℕ
  deriving Repr, DecidableEq

/-- Result of one detection tick, as seen by `detectFaces`. -/
inductive DetectResult where
  | noFace : DetectResult
  | face (centered : Bool) (qualityOk : Bool) : DetectResult
  | error : DetectResult
  deriving Repr, DecidableEq

/-- Outcome of one capture attempt (`captureFaceFeaturesFromPhoto`). -/
inductive CaptureOutcome where
  | success : CaptureOutcome
  | qualityReject : CaptureOutcome
  | failure : CaptureOutcome
  deriving Repr, DecidableEq

/-- Environment events driving a capture session. -/
inductive CaptureEv where
  | detect (r : DetectResult) : CaptureEv
  | settleFire (o : CaptureOutcome) : CaptureEv
  | blur : CaptureEv
  | focus : CaptureEv
  deriving Repr, DecidableEq

/-- Detection tick: the `detectFaces` guards followed by the centering,
quality and timer-arming logic of the source. -/
def stepDetect (s : CaptureSession) (r : DetectResult) : CaptureSession :=
  if !s.detectionActive || s.isCapturing || s.hasCaptured || !s.focused then s
  else
    match r with
    | .face true q =>
      let c := s.centeredCount + 1
      if c ≥ 2 then
        if !s.captureTimer && !s.hasCaptured && q then
          { s with centeredCount := c, captureTimer := true, storedPhoto := true }
        else
          { s with centeredCount := c }
      else
        { s with centeredCount := c }
    | .face false _ =>
      { s with centeredCount := 0, captureTimer := false }
    | .noFace =>
      { s with centeredCount := 0, captureTimer := false }
    | .error =>
      { s with centeredCount := 0, captureTimer := false }

/-- Settle-timer firing: the timer callback's guard re-checks, the one-shot
capture flag, and the capture attempt itself.  A successful attempt emits
the capture payload; a quality rejection or capture error resets the flag
to allow a retry, which also restarts detection (the effect re-runs once
`isCapturing` returns to `false`). -/
def stepSettleFire (s : CaptureSession) (o : CaptureOutcome) : CaptureSession :=
  if !s.captureTimer then s
  else if !s.hasCaptured && !s.isCapturing && s.focused && s.permission then
    let s1 := { s with hasCaptured := true, detectionActive := false,
                       captureTimer := false,
                       capturingEntries := s.capturingEntries + 1 }
    match o with
    | .success =>
      { s1 with captureEvents := s1.captureEvents + 1, isCapturing := false }
    | .qualityReject =>
      { s1 with isCapturing := false, hasCaptured := false, detectionActive := true }
    | .failure =>
      { s1 with isCapturing := false, hasCaptured := false, detectionActive := true }
  else
    { s with captureTimer := false }

/-- One step of the session under an environment event. -/
def captureStep (s : CaptureSession) : CaptureEv → CaptureSession
  | .detect r => stepDetect s r
  | .settleFire o => stepSettleFire s o
  | .blur =>
    { s with focused := false, captureTimer := false, detectionActive := false }
  | .focus =>
    { s with focused := true, hasCaptured := false,
             detectionActive := s.permission }

/-- Session state after a list of events. -/
def captureRun (s : CaptureSession) (evs : List CaptureEv) : CaptureSession :=
  evs.foldl captureStep s

/-- Initial state of a freshly focused capture session with permission. -/
def initSession : CaptureSession :=
  { focused := true, permission := true, hasCaptured := false,
    isCapturing := false, centeredCount := 0, captureTimer := false,
    detectionActive := true, storedPhoto := false,
    capturingEntries := 0, captureEvents := 0 }

/-- Whether an event stays within the current session (no re-focus). -/
def notFocusEv : CaptureEv → Bool
  | .focus => false
  | _ => true

/-- Whether an event is a settle firing whose capture attempt fails. -/
def failedAttemptEv : CaptureEv → Bool
  | .settleFire .qualityReject => true
  | .settleFire .failure => true
  | _ => false

/-! ## CredentialStateMachine (BiometricSetupScreen enrollment flow)

The device credential is the `fingerprintPublicKey` entry of persistent
storage.  `handleEnableBiometric` generates a fresh key pair and keeps the
normalized public key in volatile component state only;
`handleFaceCaptureComplete` sends the registration to the backend and
writes the key to storage only after a successful response — every error
path, including the conflict classifications, performs no storage write. -/

/-- Persistent storage slots touched by the enrollment flow. -/
structure CredStore where
  fingerprintPublicKey : Option String
  faceDataEntry : Option String
  biometricEnabled : Bool
  deriving Repr, DecidableEq

/-- Volatile enrollment-session state: storage plus the component state
holding the freshly generated key. -/
structure EnrollState where
  store : CredStore
  sessionKey : Option String
  fingerprintCompleted : Bool
  deriving Repr, DecidableEq

/-- Backend response to a registration attempt: success, one of the
conflict classifications, or some other error. -/
inductive RegResult where
  | success : RegResult
  | duplicateFace : RegResult
  | duplicateCredential : RegResult
  | deviceAlreadyUsed : RegResult
  | otherError : RegResult
  deriving Repr, DecidableEq

/-- Whether the backend reported a conflict (duplicate face, duplicate
credential, or device already used). -/
def RegResult.isConflict : RegResult → Bool
  | .duplicateFace => true
  | .duplicateCredential => true
  | .deviceAlreadyUsed => true
  | _ => false

/-- Source `handleEnableBiometric`: after a successful biometric prompt and
key creation, trim the public key and keep it in component state only; on
any failure leave everything unchanged.  No storage write happens here. -/
def handleEnableBiometric (s : EnrollState) (authOk : Bool)
    (createdKey : Option String) : EnrollState :=
  if !authOk then s
  else
    match createdKey with
    | none => s
    | some pk =>
      { s with sessionKey := some pk.trim, fingerprintCompleted := true }

/-- Source `handleFaceCaptureComplete`, registration path: validate the
session, call the registration endpoint, and only on a successful response
write the trimmed key, the face-data entry and the enabled flag to storage
together; the catch block (conflicts and other errors) only reads storage. -/
def handleFaceCaptureComplete (s : EnrollState) (faceDataOk : Bool)
    (faceDataEntry : String) (backend : RegResult) : EnrollState :=
  if !faceDataOk then s
  else if !s.fingerprintCompleted then s
  else
    match s.sessionKey with
    | none => s
    | some key =>
      match backend with
      | .success =>
        { s with store :=
          { fingerprintPublicKey := some key.trim
            faceDataEntry := some faceDataEntry
            biometricEnabled := true } }
      | _ => s

/-! ## AuthDecisionComposer

Two composers build outbound verification payloads: the check-in/out
composer inside `FaceCheckInModal.handleFaceCaptured`, and the biometric
login composer inside `authAPI.loginWithBiometric`. -/

/-- Whether a `faceEmbedding` value passes the source guard
`emb && Array.isArray(emb) && emb.length > 0`. -/
def embNonempty (emb : Option (List ℚ)) : Bool :=
  match emb with
  | some l => !l.isEmpty
  | none => false

/-- Outbound attendance verification payload (identity-related fields). -/
structure AttendancePayload where
  latitude : ℚ
  longitude : ℚ
  faceIdVerified : Bool
  faceId : String
  fingerprintPublicKey : Option String
  faceEmbedding : Option (List ℚ)
  faceImage : Option String
  faceLandmarks : Option FaceData
  deriving Repr, DecidableEq

/-- Payload composition of `handleFaceCaptured`: embedding if present and
non-empty, else image, else landmarks; `faceId` and the stored device key
are always attached. -/
def composeAttendancePayload (faceId : String) (deviceFingerprint : Option String)
    (faceEmbedding : Option (List ℚ)) (faceImageBase64 : Option String)
    (faceLandmarksPayload : Option FaceData) (loc : ℚ × ℚ) : AttendancePayload :=
  { latitude := loc.1
    longitude := loc.2
    faceIdVerified := true
    faceId := faceId
    fingerprintPublicKey := deviceFingerprint
    faceEmbedding := if embNonempty faceEmbedding then faceEmbedding else none
    faceImage :=
      if !embNonempty faceEmbedding && strTruthyO faceImageBase64 then
        faceImageBase64
      else none
    faceLandmarks :=
      if !embNonempty faceEmbedding && !strTruthyO faceImageBase64 &&
         faceLandmarksPayload.isSome then
        faceLandmarksPayload
      else none }

/-- Stored face capture result as read back by the check-in modal. -/
structure CaptureResult where
  faceId : Option String
  faceEmbedding : Option (List ℚ)
  faceData : List FaceData
  faceFeatures : Option FaceData
  imageBase64 : Option String
  deriving Repr

/-- Environment of one `handleFaceCaptured` run: results of the storage
reads, authentication state and location lookups it performs. -/
structure CheckInEnv where
  token : Option String
  tokenAfterWait : Option String
  isAuthenticated : Bool
  userPresent : Bool
  getMeRecoveredToken : Option String
  cachedLocation : Option (ℚ × ℚ)
  freshLocation : Option (ℚ × ℚ)
  storedFingerprint : Option String
  deriving Repr

/-- Outcome of a check-in submission attempt: an abort before the
attendance request, or the composed payload handed to the network layer. -/
inductive CheckInOutcome where
  | abortFaceIdNotFound : CheckInOutcome
  | abortSessionExpired : CheckInOutcome
  | abortPleaseLogin : CheckInOutcome
  | abortPleaseLoginAgain : CheckInOutcome
  | abortLocationFailed : CheckInOutcome
  | request (p : AttendancePayload) : CheckInOutcome
  deriving Repr, DecidableEq

/-- Location and payload phase of `handleFaceCaptured`, entered once
authentication checks have passed. -/
def checkInWithLocation (env : CheckInEnv) (faceId : String)
    (faceEmbedding : Option (List ℚ)) (faceImageBase64 : Option String)
    (faceLandmarksPayload : Option FaceData) : CheckInOutcome :=
  let location :=
    match env.cachedLocation with
    | some l => some l
    | none => env.freshLocation
  match location with
  | none => .abortLocationFailed
  | some loc =>
    .request (composeAttendancePayload faceId env.storedFingerprint
      faceEmbedding faceImageBase64 faceLandmarksPayload loc)

/-- Source `handleFaceCaptured` of `FaceCheckInModal`: guard on `faceId`,
token retrieval with wait and recovery, user-state check, location lookup,
then the attendance request with the composed payload. -/
def handleFaceCaptured (env : CheckInEnv) (result : CaptureResult) : CheckInOutcome :=
  if !strTruthyO result.faceId then .abortFaceIdNotFound
  else
    let faceId := result.faceId.getD ""
    let faceEmbedding := result.faceEmbedding
    let capturedFaceData := result.faceData.head?
    let faceLandmarksPayload :=
      match capturedFaceData with
      | some fd => some fd
      | none => result.faceFeatures
    let faceImageBase64 :=
      if strTruthyO result.imageBase64 then result.imageBase64 else none
    let token1 :=
      if !strTruthyO env.token && env.isAuthenticated && env.userPresent then
        (if strTruthyO env.tokenAfterWait then env.tokenAfterWait else env.token)
      else env.token
    if !strTruthyO token1 then
      if env.isAuthenticated && env.userPresent then
        match env.getMeRecoveredToken with
        | some _ =>
          if !(env.userPresent && env.isAuthenticated) then .abortPleaseLoginAgain
          else checkInWithLocation env faceId faceEmbedding faceImageBase64
            faceLandmarksPayload
        | none => .abortSessionExpired
      else .abortPleaseLogin
    else if !(env.userPresent && env.isAuthenticated) then .abortPleaseLoginAgain
    else checkInWithLocation env faceId faceEmbedding faceImageBase64
      faceLandmarksPayload

/-- Input record of `authAPI.loginWithBiometric`. -/
structure BiometricLoginInput where
  faceId : Option String
  faceEmbedding : Option (List ℚ)
  faceImage : Option String
  faceLandmarks : Option FaceData
  fingerprintPublicKey : Option String
  email : Option String
  employeeNumber : Option String
  deriving Repr

/-- Cleaned request body built by `authAPI.loginWithBiometric`. -/
structure CleanLoginData where
  faceId : Option String
  faceEmbedding : Option (List ℚ)
  faceImage : Option String
  faceLandmarks : Option FaceData
  fingerprintPublicKey : Option String
  email : Option String
  employeeNumber : Option String
  deriving Repr

/-- Source `loginWithBiometric` body construction: priority
`faceEmbedding > faceId > faceImage` (exactly one of the three),
landmarks, device key and account fields attached whenever truthy, and the
fingerprint-only branch that re-deletes already absent face fields. -/
def loginWithBiometricClean (d : BiometricLoginInput) : CleanLoginData :=
  let emb := if embNonempty d.faceEmbedding then d.faceEmbedding else none
  let fid :=
    if !embNonempty d.faceEmbedding && strTruthyO d.faceId then d.faceId else none
  let img :=
    if !embNonempty d.faceEmbedding && !strTruthyO d.faceId &&
       strTruthyO d.faceImage then d.faceImage else none
  let lmk := if d.faceLandmarks.isSome then d.faceLandmarks else none
  let fp :=
    if strTruthyO d.fingerprintPublicKey then d.fingerprintPublicKey else none
  let em := if strTruthyO d.email then d.email else none
  let en := if strTruthyO d.employeeNumber then d.employeeNumber else none
  if fp.isSome && emb.isNone && fid.isNone && img.isNone && lmk.isNone then
    { faceId := none, faceEmbedding := none, faceImage := none,
      faceLandmarks := none, fingerprintPublicKey := fp, email := em,
      employeeNumber := en }
  else
    { faceId := fid, faceEmbedding := emb, faceImage := img,
      faceLandmarks := lmk, fingerprintPublicKey := fp, email := em,
      employeeNumber := en }

/-! ## Claim theorems -/

/-- Specification predicate: a bounding box (frame or bounds) is present. -/
def hasBoundingBox (fd : FaceData) : Bool :=
  fd.frame.isSome || fd.bounds.isSome

/-- Specification predicate: the head-rotation-Y magnitude does not exceed
30 degrees (vacuously satisfied when the angle is not reported). -/
def headTurnOk (fd : FaceData) : Bool :=
  match fd.headEulerAngleY with
  | some y => decide (|y| ≤ 30)
  | none => true

/-- Specification predicate: the mean of the left/right eye-open
probabilities is at least 0.5 (vacuous unless both are reported). -/
def eyesOpenOk (fd : FaceData) : Bool :=
  match fd.leftEyeOpenProbability, fd.rightEyeOpenProbability with
  | some l, some r => decide ((l + r) / 2 ≥ 1/2)
  | _, _ => true

/-- Specification predicate: the apparent face width reaches the minimum
threshold of 150 pixels. -/
def sizeOk (fd : FaceData) : Bool :=
  decide (qualityBoxWidth fd ≥ 150)

/-- Specification predicate: the width/height aspect ratio lies inside
the frontal band `[0.7, 1.4]`. -/
def aspectOk (fd : FaceData) : Bool :=
  decide (7/10 ≤ qualityBoxWidth fd / max (qualityBoxHeight fd) 1) &&
  decide (qualityBoxWidth fd / max (qualityBoxHeight fd) 1 ≤ 7/5)

/-- QualityGate verdict as the specification orders the rules: reject on
the first failing rule among missing box, head turn, eye openness, minimum
size and aspect ratio, otherwise accept. -/
def qualityGateSpec (fd : FaceData) : QualityResult :=
  if !hasBoundingBox fd then { valid := false, reason := some reasonNoFace }
  else if !headTurnOk fd then { valid := false, reason := some reasonLookAtCamera }
  else if !eyesOpenOk fd then { valid := false, reason := some reasonOpenEyes }
  else if !sizeOk fd then { valid := false, reason := some reasonTooFar }
  else if !aspectOk fd then { valid := false, reason := some reasonNotFrontal }
  else { valid := true, reason := none }

/-- Observation used to refute the larger-offset guidance rule: face box at
(70, 80) of size 20×20 in a 100×100 photo, so the offsets are +30% in X
and +40% in Y. -/
def c10Face : FaceData :=
  { frame := some { left := some 70, top := some 80, width := some 20, height := some 20 } }

/-- Centered demo observation for the C6 witness: a 20×20 box at (40, 40)
in a 100×100 photo sits exactly at the center. -/
def c6CenteredObs : CenterObs :=
  .face { frame := some { left := some 40, top := some 40,
                          width := some 20, height := some 20 } } 100 100

/-- Mid-`Stabilizing` state for the C5 witness: settle timer armed after
two centered detections, nothing captured yet. -/
def c5StabilizingState : CaptureSession :=
  { initSession with captureTimer := true, centeredCount := 2, storedPhoto := true }

/-- Session invariant behind C4: at most one capture event, and none at
all while the one-shot capture flag is down. -/
def CaptureInv (s : CaptureSession) : Prop :=
  s.captureEvents ≤ 1 ∧ (s.hasCaptured = false → s.captureEvents = 0)

/-- Entry-count invariant behind C4 for failure-free sessions: at most one
entry into `Capturing`, and none while the capture flag is down. -/
def EntryInv (s : CaptureSession) : Prop :=
  s.capturingEntries ≤ 1 ∧ (s.hasCaptured = false → s.capturingEntries = 0)

/-- Trace refuting the one-shot claim as stated: two centered detections
arm the settle timer, its firing enters `Capturing` and sets the flag, the
quality check rejects the capture (clearing the flag for retry), another
centered detection re-arms the timer, and its firing re-enters
`Capturing`. -/
def c4Trace : List CaptureEv :=
  [.detect (.face true true), .detect (.face true true),
   .settleFire .qualityReject, .detect (.face true true),
   .settleFire .success]

/-- Enrollment state for the C1 witness: an older credential sits in
storage from a previous successful enrollment. -/
def c1PriorState : EnrollState :=
  { store := { fingerprintPublicKey := some "OLD-KEY", faceDataEntry := some "old-face",
               biometricEnabled := true }
    sessionKey := none
    fingerprintCompleted := false }

/-- Login request carrying an embedding, a faceId and a device key at the
same time, used to refute the always-include-faceId part of C2. -/
def c2LoginInput : BiometricLoginInput :=
  { faceId := some "ab", faceEmbedding := some [1], faceImage := some "img",
    faceLandmarks := none, fingerprintPublicKey := some "k",
    email := none, employeeNumber := none }

/-- Capture result that carries a `faceId` but no face evidence at all:
no embedding, no image, no landmarks. -/
def c3Result : CaptureResult :=
  { faceId := some "abc", faceEmbedding := none, faceData := [],
    faceFeatures := none, imageBase64 := none }

/-- Benign environment for the C3 counterexample: token present, user
authenticated, cached location fresh, device key stored. -/
def c3Env : CheckInEnv :=
  { token := some "tok", tokenAfterWait := none, isAuthenticated := true,
    userPresent := true, getMeRecoveredToken := none,
    cachedLocation := some (10, 20), freshLocation := none,
    storedFingerprint := some "fp" }

/-- FaceId computed as the specification words it: the rolling hash
`h = h*31 + charCode` wrapped to signed 32-bit at every step, absolute
value, hexadecimal.  Compared against the source hash for C7. -/
def specWrappedFaceId (sqrtFn : ℚ → ℚ) (fd : FaceData) : String :=
  natToHex (Int.natAbs (wrappedHashString (featureString sqrtFn fd)))

/-- Observation used to separate the source hash from the claimed
fully-wrapped hash: a 200×200 box at (100, 100) with left eye, nose base
and both mouth corners (no right eye, so `Math.sqrt` is never invoked and
every feature is an exact four-decimal value). -/
def c7Face : FaceData :=
  { frame := some { left := some 100, top := some 100,
                    width := some 200, height := some 200 }
    landmarks := some { leftEye := some { x := some 192, y := some 148 }
                        noseBase := some { x := some 211, y := some 276 }
                        mouthLeft := some { x := some 122, y := some 128 }
                        mouthRight := some { x := some 247, y := some 134 } } }

/-- Copy of `c7Face` with an extra left-ear landmark: the feature
extractor ignores ears, so the quantized feature string is unchanged. -/
def c7FaceWithEar : FaceData :=
  { frame := some { left := some 100, top := some 100,
                    width := some 200, height := some 200 }
    landmarks := some { leftEye := some { x := some 192, y := some 148 }
                        noseBase := some { x := some 211, y := some 276 }
                        mouthLeft := some { x := some 122, y := some 128 }
                        mouthRight := some { x := some 247, y := some 134 }
                        leftEar := some { x := some 150, y := some 200 } } }

/-- Uniform translation of an optional landmark position. -/
def shiftPos (dx dy : ℚ) (p : Option (ℚ × ℚ)) : Option (ℚ × ℚ) :=
  p.map (fun q => (q.1 + dx, q.2 + dy))

/-- Ear-only observation: landmarks are present, but none of the five
landmarks the feature extractor reads. -/
def c8FaceA : FaceData :=
  { frame := some { left := some 0, top := some 0,
                    width := some 200, height := some 200 }
    landmarks := some { leftEar := some { x := some 10, y := some 10 } } }

/-- `c8FaceA` translated by (+100, 0): box and ear landmark both shifted,
identical relative geometry, box size, scores and angles. -/
def c8FaceB : FaceData :=
  { frame := some { left := some 100, top := some 0,
                    width := some 200, height := some 200 }
    landmarks := some { leftEar := some { x := some 110, y := some 10 } } }

/-- Observation with a left eye for the C8 witness. -/
def c8WitnessA : FaceData :=
  { frame := some { left := some 0, top := some 0,
                    width := some 200, height := some 200 }
    landmarks := some { leftEye := some { x := some 80, y := some 90 } } }

/-- `c8WitnessA` translated by (+50, +10). -/
def c8WitnessB : FaceData :=
  { frame := some { left := some 50, top := some 10,
                    width := some 200, height := some 200 }
    landmarks := some { leftEye := some { x := some 130, y := some 100 } } }

/-! ## Theorems -/

/-- Complement lemma: a strict-less decide is the negation of the reverse
less-equal decide. -/
theorem decide_lt_eq_not_decide_le (a b : ℚ) : decide (a < b) = !decide (b ≤ a) := by
  rcases le_or_lt b a with h | h
  · rw [decide_eq_false (not_lt.mpr h), decide_eq_true h]
    rfl
  · rw [decide_eq_true h, decide_eq_false (not_le.mpr h)]
    rfl

/-- Rule-2 guard is the negation of the specification predicate. -/
theorem vfYawReject_eq (fd : FaceData) : vfYawReject fd = !headTurnOk fd := by
  unfold vfYawReject headTurnOk
  cases fd.headEulerAngleY with
  | none => rfl
  | some y => exact decide_lt_eq_not_decide_le 30 |y|

/-- Rule-3 guard is the negation of the specification predicate. -/
theorem vfEyesReject_eq (fd : FaceData) : vfEyesReject fd = !eyesOpenOk fd := by
  unfold vfEyesReject eyesOpenOk
  cases fd.leftEyeOpenProbability with
  | none => rfl
  | some l =>
    cases fd.rightEyeOpenProbability with
    | none => rfl
    | some r => exact decide_lt_eq_not_decide_le _ _

/-- Rule-1 guard is the negation of the specification predicate. -/
theorem vfNoBox_eq (fd : FaceData) : vfNoBox fd = !hasBoundingBox fd := by
  unfold vfNoBox hasBoundingBox
  cases fd.frame <;> cases fd.bounds <;> rfl

/-- Rule-4 guard is the negation of the specification predicate. -/
theorem vfTooSmall_eq (fd : FaceData) : vfTooSmall fd = !sizeOk fd := by
  unfold vfTooSmall sizeOk
  exact decide_lt_eq_not_decide_le _ _

/-- Rule-5 guard is the negation of the specification predicate. -/
theorem vfNotFrontal_eq (fd : FaceData) : vfNotFrontal fd = !aspectOk fd := by
  unfold vfNotFrontal aspectOk
  rw [decide_lt_eq_not_decide_le, decide_lt_eq_not_decide_le, Bool.not_and]

/-- C9: `validateFaceQuality` applies its rules in the specified order —
reject without a bounding box, then on head-rotation-Y magnitude above
30°, then on mean eye-open probability below 0.5, then on face width
below the 150-pixel minimum, then on a width/height aspect ratio outside
`[0.7, 1.4]` — and otherwise accepts with no effect beyond the verdict:
it equals the rule cascade written from the specification, and accepts
exactly when all five rules pass. -/
theorem validateFaceQuality_rules (fd : FaceData) :
    validateFaceQuality fd = qualityGateSpec fd ∧
    (validateFaceQuality fd).valid =
      (hasBoundingBox fd && headTurnOk fd && eyesOpenOk fd &&
       sizeOk fd && aspectOk fd) := by
  have hcascade : validateFaceQuality fd = qualityGateSpec fd := by
    unfold validateFaceQuality qualityGateSpec
    rw [vfNoBox_eq, vfYawReject_eq, vfEyesReject_eq, vfTooSmall_eq, vfNotFrontal_eq]
  refine ⟨hcascade, ?_⟩
  rw [hcascade]
  unfold qualityGateSpec
  cases h1 : hasBoundingBox fd <;> cases h2 : headTurnOk fd <;>
    cases h3 : eyesOpenOk fd <;> cases h4 : sizeOk fd <;>
      cases h5 : aspectOk fd <;> rfl

/-- Helper for C10: the source message construction equals the ordered
axis-check cascade, for arbitrary offsets. -/
theorem centerMessageSpec (ox oy : ℚ) :
    (if !decide (|ox| ≤ 25) || !decide (|oy| ≤ 25) then
       if ox > 25 then some msgMoveLeft
       else if ox < -25 then some msgMoveRight
       else if oy > 25 then some msgMoveDown
       else if oy < -25 then some msgMoveUp
       else none
     else none) =
    (if |ox| ≤ 25 ∧ |oy| ≤ 25 then none
     else if ox > 25 then some msgMoveLeft
     else if ox < -25 then some msgMoveRight
     else if oy > 25 then some msgMoveDown
     else some msgMoveUp) := by
  have key : ¬(|ox| ≤ 25 ∧ |oy| ≤ 25) →
      (!decide (|ox| ≤ 25) || !decide (|oy| ≤ 25)) = true →
      (if !decide (|ox| ≤ 25) || !decide (|oy| ≤ 25) then
         if ox > 25 then some msgMoveLeft
         else if ox < -25 then some msgMoveRight
         else if oy > 25 then some msgMoveDown
         else if oy < -25 then some msgMoveUp
         else none
       else none) =
      (if |ox| ≤ 25 ∧ |oy| ≤ 25 then none
       else if ox > 25 then some msgMoveLeft
       else if ox < -25 then some msgMoveRight
       else if oy > 25 then some msgMoveDown
       else some msgMoveUp) := by
    intro hns hcond
    rw [if_pos hcond, if_neg hns]
    split_ifs with h1 h2 h3 h4 <;> try rfl
    exact absurd ⟨abs_le.mpr ⟨not_lt.mp h2, not_lt.mp h1⟩,
      abs_le.mpr ⟨not_lt.mp h4, not_lt.mp h3⟩⟩ hns
  by_cases hx : |ox| ≤ 25 <;> by_cases hy : |oy| ≤ 25
  · simp [hx, hy]
  · exact key (by tauto) (by simp [hx, hy])
  · exact key (by tauto) (by simp [hx, hy])
  · exact key (by tauto) (by simp [hx, hy])

/-- C10 (amended): `isFaceCentered` reports `centered = true` exactly when
both percentage offsets lie within ±25; when not centered, the guidance
message is chosen by checking the axes in a fixed order — X beyond +25
gives "move left", X beyond −25 gives "move right", and only when the X
offset is inside the band does the Y offset pick "move down"/"move up" —
rather than by the sign of the larger offset. -/
theorem isFaceCentered_spec (fd : FaceData) (w h : ℚ) :
    ((isFaceCentered fd w h).centered = true ↔
      |(isFaceCentered fd w h).offsetX| ≤ 25 ∧
      |(isFaceCentered fd w h).offsetY| ≤ 25) ∧
    (isFaceCentered fd w h).message =
      (if |(isFaceCentered fd w h).offsetX| ≤ 25 ∧
          |(isFaceCentered fd w h).offsetY| ≤ 25 then none
       else if (isFaceCentered fd w h).offsetX > 25 then some msgMoveLeft
       else if (isFaceCentered fd w h).offsetX < -25 then some msgMoveRight
       else if (isFaceCentered fd w h).offsetY > 25 then some msgMoveDown
       else some msgMoveUp) := by
  constructor
  · simp [isFaceCentered]
  · simp only [isFaceCentered]
    exact centerMessageSpec _ _

/-- C10 counterexample: at offsets (+30, +40) the larger offset is the
positive Y offset, so the claimed rule would give the "move down"
guidance, but the source answers "move left" from the X check it runs
first. -/
theorem c10_counterexample :
    (isFaceCentered c10Face 100 100).offsetX = 30 ∧
    (isFaceCentered c10Face 100 100).offsetY = 40 ∧
    |(isFaceCentered c10Face 100 100).offsetY| >
      |(isFaceCentered c10Face 100 100).offsetX| ∧
    (isFaceCentered c10Face 100 100).offsetY > 25 ∧
    (isFaceCentered c10Face 100 100).message = some msgMoveLeft ∧
    msgMoveLeft ≠ msgMoveDown := by
  decide

/-- C6: the centering tracker declares stability exactly when the two most
recent observations were both centered — a single centered observation is
never enough — and any non-centered or no-face observation resets the
consecutive counter to zero. -/
theorem centering_requires_two_consecutive (os : List CenterObs) (o o1 o2 : CenterObs) :
    declaredCentered (os ++ [o1, o2]) = (obsCentered o1 && obsCentered o2) ∧
    declaredCentered [o] = false ∧
    (∀ c : ℕ, obsCentered o = false → centerTrack c o = 0) := by
  refine ⟨?_, ?_, ?_⟩
  · unfold declaredCentered centerCountAfter
    rw [List.foldl_append]
    cases h1 : obsCentered o1 <;> cases h2 : obsCentered o2 <;>
      simp [centerTrack, h1, h2]
  · unfold declaredCentered centerCountAfter
    cases h : obsCentered o <;> simp [centerTrack, h]
  · intro c hc
    unfold centerTrack
    rw [hc]
    rfl

/-- C6 witness: after a no-face tick and two centered ticks the tracker
declares stability, and a no-face observation resets any counter value. -/
theorem centering_requires_two_consecutive_witness :
    declaredCentered [CenterObs.noFace, c6CenteredObs, c6CenteredObs] = true ∧
    centerTrack 5 CenterObs.noFace = 0 := by
  have h := centering_requires_two_consecutive [CenterObs.noFace]
    CenterObs.noFace c6CenteredObs c6CenteredObs
  constructor
  · rw [show [CenterObs.noFace, c6CenteredObs, c6CenteredObs] =
        [CenterObs.noFace] ++ [c6CenteredObs, c6CenteredObs] from rfl, h.1]
    decide
  · exact h.2.2 5 (by decide)

/-- A detection tick changes none of the capture flag, the capture event
count, the entry count or the focus flag. -/
theorem stepDetect_fields (s : CaptureSession) (r : DetectResult) :
    (stepDetect s r).hasCaptured = s.hasCaptured ∧
    (stepDetect s r).captureEvents = s.captureEvents ∧
    (stepDetect s r).capturingEntries = s.capturingEntries ∧
    (stepDetect s r).focused = s.focused := by
  unfold stepDetect
  split
  · exact ⟨rfl, rfl, rfl, rfl⟩
  · cases r with
    | noFace => exact ⟨rfl, rfl, rfl, rfl⟩
    | error => exact ⟨rfl, rfl, rfl, rfl⟩
    | face c q =>
      cases c
      · exact ⟨rfl, rfl, rfl, rfl⟩
      · by_cases h1 : s.centeredCount + 1 ≥ 2 <;>
          by_cases h2 : (!s.captureTimer && !s.hasCaptured && q) = true <;>
            simp [h1, h2]

/-- Any step of an unfocused session leaves the capture event count
unchanged and the session unfocused, provided the step is not a re-focus. -/
theorem captureStep_unfocused (s : CaptureSession) (e : CaptureEv)
    (hne : notFocusEv e = true) (hf : s.focused = false) :
    (captureStep s e).captureEvents = s.captureEvents ∧
    (captureStep s e).focused = false := by
  cases e with
  | focus => simp [notFocusEv] at hne
  | blur => exact ⟨rfl, rfl⟩
  | detect r =>
    have hfields := stepDetect_fields s r
    exact ⟨hfields.2.1, hfields.2.2.2.trans hf⟩
  | settleFire o =>
    show (stepSettleFire s o).captureEvents = s.captureEvents ∧
      (stepSettleFire s o).focused = false
    unfold stepSettleFire
    split
    · exact ⟨rfl, hf⟩
    · have hg : (!s.hasCaptured && !s.isCapturing && s.focused && s.permission) = false := by
        rw [hf]
        simp
      rw [hg]
      simp [hf]

/-- No event of an unfocused session run emits a capture, as long as the
session is never re-focused. -/
theorem captureRun_unfocused (evs : List CaptureEv) :
    ∀ s : CaptureSession, evs.all notFocusEv = true → s.focused = false →
      (captureRun s evs).captureEvents = s.captureEvents ∧
      (captureRun s evs).focused = false := by
  induction evs with
  | nil => exact fun s _ hf => ⟨rfl, hf⟩
  | cons e rest ih =>
    intro s hall hf
    rw [List.all_cons, Bool.and_eq_true] at hall
    have h1 := captureStep_unfocused s e hall.1 hf
    have h2 := ih (captureStep s e) hall.2 h1.2
    exact ⟨h2.1.trans h1.1, h2.2⟩

/-- C5: if a session is cancelled by navigation blur while a settle timer
is pending and no capture has happened (mid-`Stabilizing`), then no
capture event is ever emitted for that session: whatever further events
arrive — including firings of a previously scheduled settle timer — the
capture event count stays at its pre-cancellation value, as long as the
screen is not focused again (which would start a new session). -/
theorem cancelled_session_never_captures (s : CaptureSession) (evs : List CaptureEv)
    (hstab : s.captureTimer = true) (hnc : s.hasCaptured = false)
    (hfoc : s.focused = true) (hevs : evs.all notFocusEv = true) :
    (captureRun (captureStep s .blur) evs).captureEvents = s.captureEvents := by
  have hf : (captureStep s CaptureEv.blur).focused = false := rfl
  have h := captureRun_unfocused evs (captureStep s .blur) hevs hf
  exact h.1

/-- C5 witness: blur during `Stabilizing`, followed by a late settle-timer
firing and another detection tick, emits no capture event. -/
theorem cancelled_session_never_captures_witness :
    (captureRun (captureStep c5StabilizingState .blur)
      [CaptureEv.settleFire .success,
       CaptureEv.detect (.face true true)]).captureEvents =
      c5StabilizingState.captureEvents :=
  cancelled_session_never_captures c5StabilizingState
    [CaptureEv.settleFire .success, CaptureEv.detect (.face true true)]
    rfl rfl rfl (by decide)

/-- Every in-session event preserves the capture-event invariant. -/
theorem captureStep_capture_inv (s : CaptureSession) (e : CaptureEv)
    (hne : notFocusEv e = true) (h : CaptureInv s) : CaptureInv (captureStep s e) := by
  cases e with
  | focus => simp [notFocusEv] at hne
  | blur => exact h
  | detect r =>
    have hfields := stepDetect_fields s r
    show CaptureInv (stepDetect s r)
    unfold CaptureInv
    rw [hfields.1, hfields.2.1]
    exact h
  | settleFire o =>
    show CaptureInv (stepSettleFire s o)
    unfold stepSettleFire
    split
    · exact h
    · split
      · next hg =>
        have hnc : s.hasCaptured = false := by
          rcases Bool.and_eq_true .. |>.mp (Bool.and_eq_true .. |>.mp
            (Bool.and_eq_true .. |>.mp hg).1).1 with ⟨h1, _⟩
          simpa using h1
        have hze := h.2 hnc
        cases o with
        | success => exact ⟨by simp [hze], by simp⟩
        | qualityReject => exact ⟨by simp [hze], fun _ => hze⟩
        | failure => exact ⟨by simp [hze], fun _ => hze⟩
      · exact h

/-- Every in-session, failure-free event preserves the entry invariant. -/
theorem captureStep_entry_inv (s : CaptureSession) (e : CaptureEv)
    (hne : notFocusEv e = true) (hnf : failedAttemptEv e = false)
    (h : EntryInv s) : EntryInv (captureStep s e) := by
  cases e with
  | focus => simp [notFocusEv] at hne
  | blur => exact h
  | detect r =>
    have hfields := stepDetect_fields s r
    show EntryInv (stepDetect s r)
    unfold EntryInv
    rw [hfields.1, hfields.2.2.1]
    exact h
  | settleFire o =>
    show EntryInv (stepSettleFire s o)
    unfold stepSettleFire
    split
    · exact h
    · split
      · next hg =>
        have hnc : s.hasCaptured = false := by
          rcases Bool.and_eq_true .. |>.mp (Bool.and_eq_true .. |>.mp
            (Bool.and_eq_true .. |>.mp hg).1).1 with ⟨h1, _⟩
          simpa using h1
        have hze := h.2 hnc
        cases o with
        | success => exact ⟨by simp [hze], by simp⟩
        | qualityReject => simp [failedAttemptEv] at hnf
        | failure => simp [failedAttemptEv] at hnf
      · exact h

/-- The capture-event invariant holds after any in-session run. -/
theorem captureRun_capture_inv (evs : List CaptureEv) :
    ∀ s : CaptureSession, evs.all notFocusEv = true → CaptureInv s →
      CaptureInv (captureRun s evs) := by
  induction evs with
  | nil => exact fun s _ h => h
  | cons e rest ih =>
    intro s hall h
    rw [List.all_cons, Bool.and_eq_true] at hall
    exact ih (captureStep s e) hall.2 (captureStep_capture_inv s e hall.1 h)

/-- The entry invariant holds after any failure-free in-session run. -/
theorem captureRun_entry_inv (evs : List CaptureEv) :
    ∀ s : CaptureSession, evs.all notFocusEv = true →
      evs.all (fun e => !failedAttemptEv e) = true → EntryInv s →
      EntryInv (captureRun s evs) := by
  induction evs with
  | nil => exact fun s _ _ h => h
  | cons e rest ih =>
    intro s hall hnf h
    rw [List.all_cons, Bool.and_eq_true] at hall hnf
    have hnf1 : failedAttemptEv e = false := by
      have := hnf.1
      simpa using this
    exact ih (captureStep s e) hall.2 hnf.2
      (captureStep_entry_inv s e hall.1 hnf1 h)

/-- C4 (amended): within one capture session (no re-focus event), at most
one capture event is ever emitted, and if no capture attempt fails —
failures deliberately clear the one-shot flag to allow a retry — then
`Capturing` is entered at most once; the flag therefore blocks re-entry
for as long as it stays set, but a failed attempt may clear it. -/
theorem capture_single_shot (evs : List CaptureEv)
    (hevs : evs.all notFocusEv = true) :
    (captureRun initSession evs).captureEvents ≤ 1 ∧
    (evs.all (fun e => !failedAttemptEv e) = true →
      (captureRun initSession evs).capturingEntries ≤ 1) := by
  constructor
  · exact (captureRun_capture_inv evs initSession hevs ⟨by decide, fun _ => rfl⟩).1
  · intro hnf
    exact (captureRun_entry_inv evs initSession hevs hnf ⟨by decide, fun _ => rfl⟩).1

/-- C4 counterexample: in a single session (no re-focus), after the settle
timer has fired once and entered `Capturing` (setting the capture flag), a
later settle-timer firing enters `Capturing` again, because the failed
first attempt reset the flag: the session records two `Capturing` entries. -/
theorem c4_counterexample :
    c4Trace.all notFocusEv = true ∧
    (captureRun initSession (c4Trace.take 3)).capturingEntries = 1 ∧
    (captureRun initSession c4Trace).capturingEntries = 2 := by
  decide

/-- C4 witness: a session seeing a no-face tick and a successful capture
keeps its capture-event count at one or below. -/
theorem capture_single_shot_witness :
    (captureRun initSession
      [CaptureEv.detect .noFace, CaptureEv.detect (.face true true),
       CaptureEv.detect (.face true true),
       CaptureEv.settleFire .success]).captureEvents ≤ 1 :=
  (capture_single_shot
    [CaptureEv.detect .noFace, CaptureEv.detect (.face true true),
     CaptureEv.detect (.face true true),
     CaptureEv.settleFire .success] (by decide)).1

/-- C1: when the backend reports a conflict (duplicate face, duplicate
credential, or device already used), the enrollment flow performs no write
to persistent storage: the stored `fingerprintPublicKey` after the attempt
is exactly — hence also after whitespace trimming — its pre-attempt value,
and the freshly generated credential lives only in the volatile session
state produced by `handleEnableBiometric`. -/
theorem enroll_conflict_preserves_credential (s : EnrollState) (authOk : Bool)
    (createdKey : Option String) (faceDataOk : Bool) (entry : String)
    (backend : RegResult) (hconf : backend.isConflict = true) :
    (handleFaceCaptureComplete (handleEnableBiometric s authOk createdKey)
        faceDataOk entry backend).store.fingerprintPublicKey =
      s.store.fingerprintPublicKey ∧
    (handleFaceCaptureComplete (handleEnableBiometric s authOk createdKey)
        faceDataOk entry backend).store.fingerprintPublicKey.map String.trim =
      s.store.fingerprintPublicKey.map String.trim ∧
    (∀ pk : String, authOk = true → createdKey = some pk →
      (handleFaceCaptureComplete (handleEnableBiometric s authOk createdKey)
          faceDataOk entry backend).sessionKey = some pk.trim) := by
  have hstore : ∀ s1 : EnrollState,
      (handleFaceCaptureComplete s1 faceDataOk entry backend).store = s1.store ∧
      (handleFaceCaptureComplete s1 faceDataOk entry backend).sessionKey = s1.sessionKey := by
    intro s1
    unfold handleFaceCaptureComplete
    cases backend <;> simp_all [RegResult.isConflict] <;>
      split <;> (try split) <;> simp_all <;> (try split) <;> simp_all
  have hsession : ∀ pk : String, authOk = true → createdKey = some pk →
      (handleEnableBiometric s authOk createdKey).sessionKey = some pk.trim := by
    intro pk ha hc
    unfold handleEnableBiometric
    rw [ha, hc]
    rfl
  have henable_store : (handleEnableBiometric s authOk createdKey).store = s.store := by
    unfold handleEnableBiometric
    cases authOk <;> cases createdKey <;> rfl
  refine ⟨?_, ?_, ?_⟩
  · rw [(hstore _).1, henable_store]
  · rw [(hstore _).1, henable_store]
  · intro pk ha hc
    rw [(hstore _).2, hsession pk ha hc]

/-- C1 witness: a full enrollment attempt with a freshly generated
(untrimmed) key that ends in a duplicate-face conflict leaves the stored
credential exactly as it was, with the new key only in session state. -/
theorem enroll_conflict_preserves_credential_witness :
    (handleFaceCaptureComplete
        (handleEnableBiometric c1PriorState true (some " NEW-KEY "))
        true "new-face" .duplicateFace).store.fingerprintPublicKey =
      c1PriorState.store.fingerprintPublicKey ∧
    (handleFaceCaptureComplete
        (handleEnableBiometric c1PriorState true (some " NEW-KEY "))
        true "new-face" .duplicateFace).sessionKey = some " NEW-KEY ".trim := by
  have h := enroll_conflict_preserves_credential c1PriorState true
    (some " NEW-KEY ") true "new-face" .duplicateFace (by decide)
  exact ⟨h.1, h.2.2 " NEW-KEY " rfl rfl⟩

/-- C2 (amended): the check-in composer follows the claimed ordering —
embedding when present and non-empty, else image when present, else
landmarks — and always attaches `faceId` and the stored device key; the
biometric-login composer instead sends exactly one of
embedding > faceId > image (dropping `faceId` whenever an embedding is
present and dropping the image whenever a `faceId` is present), while
always passing landmarks and the device key through when available. -/
theorem verification_payload_ordering (faceId : String) (fp : Option String)
    (emb : Option (List ℚ)) (img : Option String) (lmk : Option FaceData)
    (loc : ℚ × ℚ) (d : BiometricLoginInput) :
    (embNonempty emb = true →
      (composeAttendancePayload faceId fp emb img lmk loc).faceEmbedding = emb ∧
      (composeAttendancePayload faceId fp emb img lmk loc).faceImage = none ∧
      (composeAttendancePayload faceId fp emb img lmk loc).faceLandmarks = none) ∧
    (embNonempty emb = false → strTruthyO img = true →
      (composeAttendancePayload faceId fp emb img lmk loc).faceImage = img ∧
      (composeAttendancePayload faceId fp emb img lmk loc).faceEmbedding = none ∧
      (composeAttendancePayload faceId fp emb img lmk loc).faceLandmarks = none) ∧
    (embNonempty emb = false → strTruthyO img = false →
      (composeAttendancePayload faceId fp emb img lmk loc).faceLandmarks = lmk ∧
      (composeAttendancePayload faceId fp emb img lmk loc).faceEmbedding = none ∧
      (composeAttendancePayload faceId fp emb img lmk loc).faceImage = none) ∧
    (composeAttendancePayload faceId fp emb img lmk loc).faceId = faceId ∧
    (composeAttendancePayload faceId fp emb img lmk loc).fingerprintPublicKey = fp ∧
    (embNonempty d.faceEmbedding = true →
      (loginWithBiometricClean d).faceEmbedding = d.faceEmbedding ∧
      (loginWithBiometricClean d).faceId = none ∧
      (loginWithBiometricClean d).faceImage = none) ∧
    (embNonempty d.faceEmbedding = false → strTruthyO d.faceId = true →
      (loginWithBiometricClean d).faceId = d.faceId ∧
      (loginWithBiometricClean d).faceImage = none) ∧
    (loginWithBiometricClean d).faceLandmarks = d.faceLandmarks ∧
    (embNonempty d.faceEmbedding = false → strTruthyO d.faceId = false →
      strTruthyO d.faceImage = true →
      (loginWithBiometricClean d).faceImage = d.faceImage ∧
      (loginWithBiometricClean d).faceEmbedding = none ∧
      (loginWithBiometricClean d).faceId = none) ∧
    (strTruthyO d.fingerprintPublicKey = true →
      (loginWithBiometricClean d).fingerprintPublicKey = d.fingerprintPublicKey) := by
  refine ⟨?_, ?_, ?_, ?_, ?_, ?_, ?_, ?_, ?_, ?_⟩
  · intro he
    unfold composeAttendancePayload
    simp [he]
  · intro he hi
    unfold composeAttendancePayload
    simp [he, hi]
  · intro he hi
    unfold composeAttendancePayload
    simp [he, hi]
    cases lmk <;> simp
  · rfl
  · rfl
  · intro he
    unfold loginWithBiometricClean
    rcases hd : d.faceEmbedding with _ | l
    · rw [hd] at he
      simp [embNonempty] at he
    · rw [hd] at he
      simp [he, hd]
  · intro he hf
    unfold loginWithBiometricClean
    rcases hd : d.faceId with _ | s
    · rw [hd] at hf
      simp [strTruthyO] at hf
    · rw [hd] at hf
      simp [he, hf, hd]
  · unfold loginWithBiometricClean
    by_cases he : embNonempty d.faceEmbedding = true <;>
      by_cases hf : strTruthyO d.faceId = true <;>
        by_cases hi : strTruthyO d.faceImage = true <;>
          cases hl : d.faceLandmarks <;>
            simp [he, hf, hi, hl, apply_ite CleanLoginData.faceLandmarks]
  · intro he hf hi
    unfold loginWithBiometricClean
    rcases hd : d.faceImage with _ | s
    · rw [hd] at hi
      simp [strTruthyO] at hi
    · rw [hd] at hi
      simp [he, hf, hi, hd]
  · intro hfp
    unfold loginWithBiometricClean
    simp [hfp, apply_ite CleanLoginData.fingerprintPublicKey]

/-- C2 counterexample: the biometric-login composer drops an available
`faceId` (and image) as soon as an embedding is present, so the composed
payload does not always carry the faceId as a secondary disambiguator. -/
theorem c2_counterexample :
    strTruthyO c2LoginInput.faceId = true ∧
    embNonempty c2LoginInput.faceEmbedding = true ∧
    (loginWithBiometricClean c2LoginInput).faceId = none ∧
    (loginWithBiometricClean c2LoginInput).faceImage = none ∧
    (loginWithBiometricClean c2LoginInput).faceEmbedding = some [1] := by
  decide

/-- C2 witness: a check-in composition with no embedding but an image
present sends the image and not the embedding, with faceId and device key
attached; a login composition with an embedding keeps the embedding. -/
theorem verification_payload_ordering_witness :
    (composeAttendancePayload "fid" (some "key") none (some "img") none (2, 3)).faceImage =
      some "img" ∧
    (composeAttendancePayload "fid" (some "key") none (some "img") none (2, 3)).faceEmbedding =
      none ∧
    (composeAttendancePayload "fid" (some "key") none (some "img") none (2, 3)).faceId =
      "fid" ∧
    (composeAttendancePayload "fid" (some "key") none (some "img") none (2, 3)).fingerprintPublicKey =
      some "key" ∧
    (loginWithBiometricClean c2LoginInput).faceEmbedding = some [1] ∧
    (loginWithBiometricClean c2LoginInput).fingerprintPublicKey = some "k" := by
  have h := verification_payload_ordering "fid" (some "key") none (some "img")
    none (2, 3) c2LoginInput
  have h2 := h.2.1 (by decide) (by decide)
  exact ⟨h2.1, h2.2.1, h.2.2.2.1, h.2.2.2.2.1,
    (h.2.2.2.2.2.1 (by decide)).1.trans rfl,
    (h.2.2.2.2.2.2.2.2.2 (by decide)).trans rfl⟩

/-- C3 (amended): `handleFaceCaptured` aborts — independently of tokens,
authentication state, location or stored key, hence before any network
interaction — exactly on a missing or empty `faceId`; absence of the
embedding/image/landmark evidence alone does not abort the submission. -/
theorem faceId_guard_aborts_before_network (env : CheckInEnv) (result : CaptureResult)
    (hmiss : strTruthyO result.faceId = false) :
    handleFaceCaptured env result = .abortFaceIdNotFound := by
  unfold handleFaceCaptured
  rw [hmiss]
  rfl

/-- C3 counterexample: a submission attempt with a `faceId` but with no
embedding, no image and no landmarks is not aborted — it reaches the
network layer as an attendance request whose three evidence fields are all
absent. -/
theorem c3_counterexample :
    embNonempty c3Result.faceEmbedding = false ∧
    c3Result.imageBase64 = none ∧
    c3Result.faceData = [] ∧
    c3Result.faceFeatures.isNone = true ∧
    handleFaceCaptured c3Env c3Result =
      .request { latitude := 10, longitude := 20, faceIdVerified := true,
                 faceId := "abc", fingerprintPublicKey := some "fp",
                 faceEmbedding := none, faceImage := none,
                 faceLandmarks := none } := by
  decide

/-- C3 witness: a capture result with no `faceId` is aborted before any
network call, whatever the environment. -/
theorem faceId_guard_aborts_before_network_witness :
    handleFaceCaptured c3Env
      { faceId := none, faceEmbedding := some [1], faceData := [],
        faceFeatures := none, imageBase64 := some "img" } =
      .abortFaceIdNotFound :=
  faceId_guard_aborts_before_network c3Env
    { faceId := none, faceEmbedding := some [1], faceData := [],
      faceFeatures := none, imageBase64 := some "img" } (by decide)

/-- C7 counterexample: on a plain landmarked observation the source hash
accumulator leaves the signed 32-bit range — only the `<< 5` shift wraps,
the subtraction and character addition are exact — so the returned FaceId
differs from the claimed wrap-to-32-bit-each-step hash. -/
theorem c7_counterexample :
    c7Face.landmarks.isSome = true ∧
    generateFaceIdFromLandmarks (fun q => q) c7Face = "27f6e4fbe" ∧
    specWrappedFaceId (fun q => q) c7Face = "7f6e4fbe" ∧
    jsHashString (featureString (fun q => q) c7Face) = -10727870398 ∧
    generateFaceIdFromLandmarks (fun q => q) c7Face ≠
      specWrappedFaceId (fun q => q) c7Face := by
  decide

/-- C7 (amended): `generateFaceIdFromLandmarks` rounds every feature to
four decimal digits, joins them with commas, folds the rolling hash
`h ↦ wrap32(h·32) − h + charCode` — in which only the shift wraps to the
signed 32-bit range while the subtraction and addition are exact — and
returns the absolute value in hexadecimal; identical post-quantization
feature strings always yield the identical FaceId. -/
theorem generateFaceIdFromLandmarks_hash (sqrtFn : ℚ → ℚ) (fd fd' : FaceData) :
    generateFaceIdFromLandmarks sqrtFn fd =
      natToHex (Int.natAbs
        ((String.intercalate "," ((faceFeatures sqrtFn fd).map toFixed4)).toList.foldl
          (fun acc c => wrap32 (acc * 32) - acc + (c.toNat : ℤ)) 0)) ∧
    (featureString sqrtFn fd' = featureString sqrtFn fd →
      generateFaceIdFromLandmarks sqrtFn fd' = generateFaceIdFromLandmarks sqrtFn fd) := by
  refine ⟨rfl, ?_⟩
  intro h
  unfold generateFaceIdFromLandmarks
  rw [h]

/-- C7 witness: two distinct observations with the same post-quantization
feature string receive the identical FaceId. -/
theorem generateFaceIdFromLandmarks_hash_witness :
    generateFaceIdFromLandmarks (fun q => q) c7FaceWithEar =
      generateFaceIdFromLandmarks (fun q => q) c7Face :=
  (generateFaceIdFromLandmarks_hash (fun q => q) c7Face c7FaceWithEar).2 (by decide)

/-- A landmark feature is invariant under translating both the landmark
and the face center by the same vector. -/
theorem lmFeat_shift (L T W H dx dy : ℚ) (p : Option (ℚ × ℚ)) :
    lmFeat (L + dx + W / 2) (T + dy + H / 2) W H (shiftPos dx dy p) =
    lmFeat (L + W / 2) (T + H / 2) W H p := by
  cases p with
  | none => rfl
  | some q =>
    obtain ⟨x, y⟩ := q
    show [(x + dx - (L + dx + W / 2)) / W, (y + dy - (T + dy + H / 2)) / H] =
      [(x - (L + W / 2)) / W, (y - (T + H / 2)) / H]
    have e1 : x + dx - (L + dx + W / 2) = x - (L + W / 2) := by ring
    have e2 : y + dy - (T + dy + H / 2) = y - (T + H / 2) := by ring
    rw [e1, e2]

/-- The inter-eye distance feature is invariant under translating both
eye positions by the same vector. -/
theorem eyeDistFeat_shift (sqrtFn : ℚ → ℚ) (w dx dy : ℚ) (pL pR : Option (ℚ × ℚ)) :
    eyeDistFeat sqrtFn w (shiftPos dx dy pL) (shiftPos dx dy pR) =
    eyeDistFeat sqrtFn w pL pR := by
  cases pL with
  | none => cases pR <;> rfl
  | some ql =>
    cases pR with
    | none => rfl
    | some qr =>
      obtain ⟨lx, ly⟩ := ql
      obtain ⟨rx, ry⟩ := qr
      show [sqrtFn ((rx + dx - (lx + dx)) ^ 2 + (ry + dy - (ly + dy)) ^ 2) / w] =
        [sqrtFn ((rx - lx) ^ 2 + (ry - ly) ^ 2) / w]
      have e : (rx + dx - (lx + dx)) ^ 2 + (ry + dy - (ly + dy)) ^ 2 =
          (rx - lx) ^ 2 + (ry - ly) ^ 2 := by ring
      rw [e]

/-- An observation with one of the five used landmarks has a non-empty
landmark feature list. -/
theorem coreFeatures_ne_empty (sqrtFn : ℚ → ℚ) (fd : FaceData)
    (hused : usedLandmarkPresent fd = true) :
    (coreFeatures sqrtFn fd).isEmpty = false := by
  unfold usedLandmarkPresent at hused
  unfold coreFeatures
  simp only [Bool.or_eq_true] at hused
  rcases hused with ((((h | h) | h) | h) | h) <;>
    rcases hp : Option.isSome_iff_exists.mp h with ⟨p, hp2⟩ <;>
      rw [hp2] <;>
        obtain ⟨x, y⟩ := p <;>
          simp [lmFeat, List.isEmpty_iff]

/-- Landmark features are invariant under a uniform translation of the
box and the used landmark positions. -/
theorem coreFeatures_shift (sqrtFn : ℚ → ℚ) (fd fd' : FaceData) (dx dy : ℚ)
    (hW : frameWidthVal fd' = frameWidthVal fd)
    (hH : frameHeightVal fd' = frameHeightVal fd)
    (hL : frameLeftVal fd' = frameLeftVal fd + dx)
    (hT : frameTopVal fd' = frameTopVal fd + dy)
    (hLE : landmarkPos fd' (fun l => l.leftEye) =
      shiftPos dx dy (landmarkPos fd (fun l => l.leftEye)))
    (hRE : landmarkPos fd' (fun l => l.rightEye) =
      shiftPos dx dy (landmarkPos fd (fun l => l.rightEye)))
    (hNB : landmarkPos fd' (fun l => l.noseBase) =
      shiftPos dx dy (landmarkPos fd (fun l => l.noseBase)))
    (hML : landmarkPos fd' (fun l => l.mouthLeft) =
      shiftPos dx dy (landmarkPos fd (fun l => l.mouthLeft)))
    (hMR : landmarkPos fd' (fun l => l.mouthRight) =
      shiftPos dx dy (landmarkPos fd (fun l => l.mouthRight))) :
    coreFeatures sqrtFn fd' = coreFeatures sqrtFn fd := by
  unfold coreFeatures
  rw [hW, hH, hL, hT, hLE, hRE, hNB, hML, hMR]
  rw [lmFeat_shift, lmFeat_shift, lmFeat_shift, lmFeat_shift, lmFeat_shift,
    eyeDistFeat_shift]

/-- An observation whose five used landmarks are all absent cannot claim
a used landmark; conversely a used landmark forces the landmark set to be
present. -/
theorem usedLandmark_landmarks_isSome (fd : FaceData)
    (hused : usedLandmarkPresent fd = true) : fd.landmarks.isSome = true := by
  rcases h : fd.landmarks with _ | lms
  · exfalso
    unfold usedLandmarkPresent landmarkPos at hused
    rw [h] at hused
    simp [emptyLandmarks, getLandmarkPos] at hused
  · rfl

/-- The whole feature vector is invariant under a uniform translation,
provided at least one used landmark is present (otherwise the fallback
block would expose the absolute box position). -/
theorem faceFeatures_shift (sqrtFn : ℚ → ℚ) (fd fd' : FaceData) (dx dy : ℚ)
    (hW : frameWidthVal fd' = frameWidthVal fd)
    (hH : frameHeightVal fd' = frameHeightVal fd)
    (hL : frameLeftVal fd' = frameLeftVal fd + dx)
    (hT : frameTopVal fd' = frameTopVal fd + dy)
    (hLE : landmarkPos fd' (fun l => l.leftEye) =
      shiftPos dx dy (landmarkPos fd (fun l => l.leftEye)))
    (hRE : landmarkPos fd' (fun l => l.rightEye) =
      shiftPos dx dy (landmarkPos fd (fun l => l.rightEye)))
    (hNB : landmarkPos fd' (fun l => l.noseBase) =
      shiftPos dx dy (landmarkPos fd (fun l => l.noseBase)))
    (hML : landmarkPos fd' (fun l => l.mouthLeft) =
      shiftPos dx dy (landmarkPos fd (fun l => l.mouthLeft)))
    (hMR : landmarkPos fd' (fun l => l.mouthRight) =
      shiftPos dx dy (landmarkPos fd (fun l => l.mouthRight)))
    (hsm : fd'.smilingProbability = fd.smilingProbability)
    (hay : fd'.headEulerAngleY = fd.headEulerAngleY)
    (hused : usedLandmarkPresent fd = true) :
    faceFeatures sqrtFn fd' = faceFeatures sqrtFn fd := by
  have hcore := coreFeatures_shift sqrtFn fd fd' dx dy hW hH hL hT hLE hRE hNB hML hMR
  unfold faceFeatures
  rw [hcore, hW, hH, hsm, hay, coreFeatures_ne_empty sqrtFn fd hused]
  simp

/-- C8 (amended): two observations whose resolved bounding boxes and
whose landmark positions differ only by a uniform translation, with equal
classification scores and head angles, receive the identical FaceId from
`generateFaceId` — provided at least one of the landmarks actually read
by the feature extractor (eyes, nose base, mouth corners) is present;
an observation whose landmark set holds only unused landmarks (ears,
cheeks) falls back to absolute box-position features and is not covered. -/
theorem generateFaceId_translation_invariant (sqrtFn : ℚ → ℚ)
    (serialize : FaceData → String) (b64 : Option String)
    (fd fd' : FaceData) (dx dy : ℚ)
    (hW : frameWidthVal fd' = frameWidthVal fd)
    (hH : frameHeightVal fd' = frameHeightVal fd)
    (hL : frameLeftVal fd' = frameLeftVal fd + dx)
    (hT : frameTopVal fd' = frameTopVal fd + dy)
    (hLE : landmarkPos fd' (fun l => l.leftEye) =
      shiftPos dx dy (landmarkPos fd (fun l => l.leftEye)))
    (hRE : landmarkPos fd' (fun l => l.rightEye) =
      shiftPos dx dy (landmarkPos fd (fun l => l.rightEye)))
    (hNB : landmarkPos fd' (fun l => l.noseBase) =
      shiftPos dx dy (landmarkPos fd (fun l => l.noseBase)))
    (hML : landmarkPos fd' (fun l => l.mouthLeft) =
      shiftPos dx dy (landmarkPos fd (fun l => l.mouthLeft)))
    (hMR : landmarkPos fd' (fun l => l.mouthRight) =
      shiftPos dx dy (landmarkPos fd (fun l => l.mouthRight)))
    (hsm : fd'.smilingProbability = fd.smilingProbability)
    (hay : fd'.headEulerAngleY = fd.headEulerAngleY)
    (hused : usedLandmarkPresent fd = true) :
    generateFaceId sqrtFn serialize fd' b64 =
      generateFaceId sqrtFn serialize fd b64 := by
  have hused2 : usedLandmarkPresent fd' = true := by
    unfold usedLandmarkPresent at hused ⊢
    rw [hLE, hRE, hNB, hML, hMR]
    simpa [shiftPos] using hused
  have h1 : fd.landmarks.isSome = true := usedLandmark_landmarks_isSome fd hused
  have h2 : fd'.landmarks.isSome = true := usedLandmark_landmarks_isSome fd' hused2
  have hffs := faceFeatures_shift sqrtFn fd fd' dx dy hW hH hL hT hLE hRE hNB hML
    hMR hsm hay hused
  unfold generateFaceId
  simp only [h1, h2, Bool.true_or, if_true]
  unfold generateFaceIdFromLandmarks featureString
  rw [hffs]

/-- C8 counterexample: the two observations have landmarks present and
differ only by a uniform translation of the box and of every landmark
coordinate, yet `generateFaceId` gives them different FaceIds — with no
usable landmark the hasher falls back to the absolute box position, which
the translation changes. -/
theorem c8_counterexample :
    c8FaceA.landmarks.isSome = true ∧
    c8FaceB.landmarks.isSome = true ∧
    frameWidthVal c8FaceB = frameWidthVal c8FaceA ∧
    frameHeightVal c8FaceB = frameHeightVal c8FaceA ∧
    frameLeftVal c8FaceB = frameLeftVal c8FaceA + 100 ∧
    frameTopVal c8FaceB = frameTopVal c8FaceA + 0 ∧
    landmarkPos c8FaceB (fun l => l.leftEar) =
      shiftPos 100 0 (landmarkPos c8FaceA (fun l => l.leftEar)) ∧
    landmarkPos c8FaceB (fun l => l.rightEar) =
      shiftPos 100 0 (landmarkPos c8FaceA (fun l => l.rightEar)) ∧
    landmarkPos c8FaceB (fun l => l.leftEye) =
      shiftPos 100 0 (landmarkPos c8FaceA (fun l => l.leftEye)) ∧
    landmarkPos c8FaceB (fun l => l.rightEye) =
      shiftPos 100 0 (landmarkPos c8FaceA (fun l => l.rightEye)) ∧
    landmarkPos c8FaceB (fun l => l.noseBase) =
      shiftPos 100 0 (landmarkPos c8FaceA (fun l => l.noseBase)) ∧
    landmarkPos c8FaceB (fun l => l.mouthLeft) =
      shiftPos 100 0 (landmarkPos c8FaceA (fun l => l.mouthLeft)) ∧
    landmarkPos c8FaceB (fun l => l.mouthRight) =
      shiftPos 100 0 (landmarkPos c8FaceA (fun l => l.mouthRight)) ∧
    landmarkPos c8FaceB (fun l => l.mouthBottom) =
      shiftPos 100 0 (landmarkPos c8FaceA (fun l => l.mouthBottom)) ∧
    landmarkPos c8FaceB (fun l => l.leftCheek) =
      shiftPos 100 0 (landmarkPos c8FaceA (fun l => l.leftCheek)) ∧
    landmarkPos c8FaceB (fun l => l.rightCheek) =
      shiftPos 100 0 (landmarkPos c8FaceA (fun l => l.rightCheek)) ∧
    c8FaceB.smilingProbability = c8FaceA.smilingProbability ∧
    c8FaceB.headEulerAngleX = c8FaceA.headEulerAngleX ∧
    c8FaceB.headEulerAngleY = c8FaceA.headEulerAngleY ∧
    c8FaceB.headEulerAngleZ = c8FaceA.headEulerAngleZ ∧
    generateFaceId (fun q => q) (fun _ => "") c8FaceA none = "358b844c" ∧
    generateFaceId (fun q => q) (fun _ => "") c8FaceB none = "ca7d0551" ∧
    generateFaceId (fun q => q) (fun _ => "") c8FaceB none ≠
      generateFaceId (fun q => q) (fun _ => "") c8FaceA none := by
  decide

/-- C8 witness: for a pair of observations with a used landmark (the left
eye) differing by a camera-shake translation, the FaceIds coincide. -/
theorem generateFaceId_translation_invariant_witness :
    generateFaceId (fun q => q) (fun _ => "") c8WitnessB none =
      generateFaceId (fun q => q) (fun _ => "") c8WitnessA none :=
  generateFaceId_translation_invariant (fun q => q) (fun _ => "") none
    c8WitnessA c8WitnessB 50 10 (by decide) (by decide) (by decide) (by decide)
    (by decide) (by decide) (by decide) (by decide) (by decide) (by decide)
    (by decide) (by decide)
